import Mathlib

/-!
Shallow embedding of `src/flows/demo3/main.py` (pixi-prefect), the GPU
acquisition demo built on Prefect concurrency limits.

Modelling conventions:
* Environment variables are an explicit `Env` record (`WORKER_ID`,
  `WORKER_GPU_IDS`), each `Option String` (`none` = unset).
* Python exceptions are the inductive `Exc`.  The two Prefect contention
  exception classes caught by `acquire_gpu`'s `except` clause
  (`AcquireConcurrencySlotTimeoutError`, `ConcurrencySlotAcquisitionError`)
  are `Exc.acquireTimeout` and `Exc.slotAcquisition`; any other exception a
  limiter probe or the caller's protected block may raise is represented by
  the remaining constructors.
* A probe of `with concurrency(name, occupy=1, timeout_seconds=0.1)` either
  enters (`ProbeOutcome.acquired`) or raises an exception
  (`ProbeOutcome.raises e`); the external limiter is a function from
  limiter name to outcome.  Wall-clock time is not modelled; the bounded
  0.1 s timeout shows up only as "each probe is one call".
* Observable side effects are collected in an event trace (`Event`):
  limiter probes, slot acquisitions, values yielded to the caller, the
  "GPU ... is busy" log line, slot releases, and task-body executions.
* `acquire_gpu` is a `contextlib.contextmanager` generator.  Its
  interaction with the caller's `with` block follows CPython's
  `_GeneratorContextManager.__exit__`: a body exception is thrown into the
  generator at the `yield`; the inner `with concurrency` releases the slot;
  the generator's `except` clause catches only the two contention classes
  and resumes the probe loop.  If the resumed loop acquires another slot
  the generator yields again and `__exit__` raises
  `RuntimeError("generator didn't stop after throw()")`, abandoning the
  suspended generator (the second slot is released only at garbage
  collection, which is outside the caller's scope and not modelled).
* Python's `random` module is modelled as a stream `f : Nat → Nat` of
  draws with a running position; `random.randint(0, 10)` reads one draw
  mod 11, `random.choice` over the six labels reads one draw mod 6.
  `time.sleep` and info-level logs other than the busy-skip line are not
  modelled.
-/

instance {ε α : Type} [DecidableEq ε] [DecidableEq α] : DecidableEq (Except ε α) := fun x y =>
  match x, y with
  | .ok a, .ok b => if h : a = b then .isTrue (by rw [h]) else .isFalse (by simp [h])
  | .error a, .error b => if h : a = b then .isTrue (by rw [h]) else .isFalse (by simp [h])
  | .ok _, .error _ => .isFalse (by simp)
  | .error _, .ok _ => .isFalse (by simp)

/-- Environment variables read by the demo (`none` = variable unset). -/
structure Env where
  workerId : Option String
  workerGpuIds : Option String
deriving DecidableEq

/-- Python exception values relevant to the demo.  `acquireTimeout` is
Prefect's `AcquireConcurrencySlotTimeoutError`, `slotAcquisition` is
Prefect's `ConcurrencySlotAcquisitionError`; `valueError` and
`runtimeError` carry their message; `otherExc` stands for any further
exception class (e.g. a service/transport failure type not caught by the
probe loop). -/
inductive Exc where
  | valueError (msg : String)
  | runtimeError (msg : String)
  | acquireTimeout
  | slotAcquisition
  | otherExc
deriving DecidableEq

/-- The exception classes named in `acquire_gpu`'s `except` clause. -/
def isContention : Exc → Bool
  | .acquireTimeout => true
  | .slotAcquisition => true
  | _ => false

/-- Result of one `with concurrency(name, occupy=1, timeout_seconds=0.1)`
entry attempt. -/
inductive ProbeOutcome where
  | acquired
  | raises (e : Exc)
deriving DecidableEq

/-- A probe outcome that the probe loop treats as contention (busy slot or
probe timeout): the raised exception is one of the two caught classes. -/
def contentionOutcome : ProbeOutcome → Bool
  | .acquired => false
  | .raises e => isContention e

/-- Observable events of a run, in order: a limiter probe (`tryAcquire`
call), a successful slot acquisition, the gpu id yielded to the caller's
block, the "GPU ... is busy, trying another one" log, a slot release, and
the execution of a named task body. -/
inductive Event where
  | probe (limiterName : String)
  | acq (limiterName : String)
  | yld (gpuId : Int)
  | logBusy (gpuId : Int)
  | rel (limiterName : String)
  | work (unit : String)
deriving DecidableEq

/-- Digit-string accumulator for `pyInt`. -/
def digitsToNatAux : List Char → Nat → Option Nat
  | [], acc => some acc
  | c :: cs, acc =>
    if c.isDigit then digitsToNatAux cs (acc * 10 + (c.toNat - 48)) else none

/-- Python's `str.strip()` as used implicitly by `int(str)`: drop leading
and trailing whitespace. -/
def pyStrip (s : String) : String :=
  String.mk (((s.data.dropWhile Char.isWhitespace).reverse.dropWhile Char.isWhitespace).reverse)

/-- Python's `str.split(sep)` for a one-character separator, at the
character-list level. -/
def pySplitAux (sep : Char) : List Char → List Char → List String
  | [], acc => [String.mk acc.reverse]
  | c :: cs, acc =>
    if c = sep then String.mk acc.reverse :: pySplitAux sep cs [] else pySplitAux sep cs (c :: acc)

/-- `raw.split(",")` from the source. -/
def pySplitComma (s : String) : List String :=
  pySplitAux ',' s.data []

/-- Python's `int(str)`: surrounding whitespace stripped, optional single
sign, then one or more decimal digits; anything else raises `ValueError`.
(Numeric-literal underscores accepted by CPython's `int` are not
modelled.) -/
def pyInt (s : String) : Option Int :=
  match (pyStrip s).data with
  | [] => none
  | '-' :: cs =>
    match cs with
    | [] => none
    | _ => (digitsToNatAux cs 0).map fun n => -(n : Int)
  | '+' :: cs =>
    match cs with
    | [] => none
    | _ => (digitsToNatAux cs 0).map fun n => (n : Int)
  | cs => (digitsToNatAux cs 0).map fun n => (n : Int)

/-- The comprehension `[int(id_) for id_ in tokens]`: convert every token,
aborting at the first conversion failure. -/
def parseIntList : List String → Option (List Int)
  | [] => some []
  | t :: ts =>
    match pyInt t, parseIntList ts with
    | some v, some vs => some (v :: vs)
    | _, _ => none

/-- `get_worker_gpu_ids` from the source: read `WORKER_GPU_IDS` with
default `""`; raise `ValueError` if falsy (unset or empty); split on `","`
and convert each token with `int`.  The `ValueError` message of a failing
`int` conversion is abbreviated. -/
def get_worker_gpu_ids (env : Env) : Except Exc (List Int) :=
  let raw := env.workerGpuIds.getD ""
  if raw = "" then
    .error (.valueError "WORKER_GPU_IDS environment variable is not set.")
  else
    match parseIntList (pySplitComma raw) with
    | some ids => .ok ids
    | none => .error (.valueError "invalid literal for int() with base 10")

/-- The limiter name `f"gpu-{worker_id}-{gpu_id}"`. -/
def mkLimiterName (workerId : String) (gpuId : Int) : String :=
  s!"gpu-{workerId}-{gpuId}"

/-- The probe phase of `acquire_gpu`'s `for` loop: walk the candidate list
in declared order; on a contention exception log the busy skip and
continue; on any other exception propagate it; on acquisition stop,
returning the acquired candidate and the candidates not yet probed.
Exhaustion raises `RuntimeError(f"No available GPUs on worker {wid}")`. -/
def probeForGpu (wid : String) (limiter : String → ProbeOutcome) :
    List (Int × String) → List Event × Except Exc (Int × String × List (Int × String))
  | [] => ([], .error (.runtimeError ("No available GPUs on worker " ++ wid)))
  | (gid, name) :: rest =>
    match limiter name with
    | .acquired => ([.probe name, .acq name], .ok (gid, name, rest))
    | .raises e =>
      if isContention e then
        let (es, r) := probeForGpu wid limiter rest
        (.probe name :: .logBusy gid :: es, r)
      else
        ([.probe name], .error e)

/-- One full interaction of a caller's `with acquire_gpu(...) as gpu_id:`
block with the probe loop, given the candidate list.  `body gid` is what
the caller's protected block does with the yielded gpu id: `none` =
completes normally, `some e` = raises `e` (thrown into the generator at the
`yield`).  Returns what the caller's `with` statement does overall
(`.ok ()` = completes normally) together with the event trace produced
before control returns to the caller. -/
def acquireScope (wid : String) (limiter : String → ProbeOutcome)
    (body : Int → Option Exc) (cands : List (Int × String)) :
    Except Exc Unit × List Event :=
  match probeForGpu wid limiter cands with
  | (es, .error e) => (.error e, es)
  | (es, .ok (gid, name, rest)) =>
    match body gid with
    | none => (.ok (), es ++ [.yld gid, .rel name])
    | some e =>
      if isContention e then
        -- The inner `with concurrency` releases the slot, the `except`
        -- clause logs the busy skip and the loop resumes on `rest`.
        match probeForGpu wid limiter rest with
        | (es2, .error e2) =>
          (.error e2, es ++ [.yld gid, .rel name, .logBusy gid] ++ es2)
        | (es2, .ok _) =>
          -- The generator yields a second time: contextlib raises
          -- RuntimeError and abandons the generator; the slot acquired at
          -- the end of `es2` is not released before the scope exits.
          (.error (.runtimeError "generator didn\x27t stop after throw()"),
            es ++ [.yld gid, .rel name, .logBusy gid] ++ es2)
      else
        (.error e, es ++ [.yld gid, .rel name])

/-- `acquire_gpu` from the source, run against a caller whose protected
block behaves as `body`: read `WORKER_ID` (raising `ValueError` when
unset), load the gpu ids, build the limiter names in declared order, and
run the probe loop / scope interaction. -/
def acquire_gpu (env : Env) (limiter : String → ProbeOutcome)
    (body : Int → Option Exc) : Except Exc Unit × List Event :=
  match env.workerId with
  | none =>
    (.error (.valueError "WORKER_ID environment variable is not set - cannot acquire GPU"), [])
  | some wid =>
    match get_worker_gpu_ids env with
    | .error e => (.error e, [])
    | .ok gpuIds =>
      acquireScope wid limiter body (gpuIds.map fun g => (g, mkLimiterName wid g))

/-- Number of limiter probes (`tryAcquire` calls) in a trace. -/
def countProbe (es : List Event) : Nat :=
  es.countP fun e => match e with | .probe _ => true | _ => false

/-- Number of successful slot acquisitions in a trace. -/
def countAcq (es : List Event) : Nat :=
  es.countP fun e => match e with | .acq _ => true | _ => false

/-- Number of slot releases in a trace. -/
def countRel (es : List Event) : Nat :=
  es.countP fun e => match e with | .rel _ => true | _ => false

/-- Acquisitions of one particular limiter name. -/
def countAcqName (n : String) (es : List Event) : Nat :=
  es.countP fun e => match e with | .acq m => m = n | _ => false

/-- Releases of one particular limiter name. -/
def countRelName (n : String) (es : List Event) : Nat :=
  es.countP fun e => match e with | .rel m => m = n | _ => false

/-- Contribution of one event to the number of currently held slots. -/
def heldDelta : Event → Int
  | .acq _ => 1
  | .rel _ => -1
  | _ => 0

/-- Number of slots still held after a trace. -/
def heldAfter (es : List Event) : Int :=
  es.foldl (fun h e => h + heldDelta e) 0

/-- Running maximum of the number of simultaneously held slots. -/
def maxHeldAux : List Event → Int → Int → Int
  | [], _, m => m
  | e :: es, h, m =>
    let h2 := h + heldDelta e
    maxHeldAux es h2 (max m h2)

/-- Largest number of slots held at once at any point of a trace. -/
def maxHeld (es : List Event) : Int :=
  maxHeldAux es 0 0

/-- The six prediction labels of `predict`. -/
def labels : List String := ["Cat", "Dog", "Sheep", "Duck", "Owl", "Squirrel"]

/-- `_simulate_work` from the source: `secs` iterations each adding
`random.randint(0, 10)` (one draw, taken mod 11).  Returns the accumulated
result and the next draw position. -/
def simulate_work (f : Nat → Nat) (k : Nat) (secs : Nat) : Int × Nat :=
  (((List.range secs).map fun i => ((f (k + i) % 11 : Nat) : Int)).sum, k + secs)

/-- Task `pre_processing`: simulate work, return its result. -/
def pre_processing (gpuId : Int) (secs : Nat) (f : Nat → Nat) (k : Nat) : Int × Nat :=
  simulate_work f k secs

/-- Task `predict`: simulate work (result discarded; `data` is unused by
the body), then `random.choice` over the six labels (one draw mod 6). -/
def predict (gpuId : Int) (data : Int) (secs : Nat) (f : Nat → Nat) (k : Nat) : String × Nat :=
  let (_, k2) := simulate_work f k secs
  (labels.getD (f k2 % 6) "", k2 + 1)

/-- Python's `str.upper()` at the character-list level. -/
def pyUpper (s : String) : String :=
  String.mk (s.data.map Char.toUpper)

/-- Task `post_processing`: simulate work, then `print(pred.upper())`.
Returns the printed line (the Python function itself returns `None`). -/
def post_processing (gpuId : Int) (pred : String) (secs : Nat) (f : Nat → Nat) (k : Nat) :
    String × Nat :=
  let (_, k2) := simulate_work f k secs
  (pyUpper pred, k2)

/-- Retry count of the `@flow` decorator on
`single_acquisition_prediction_flow`. -/
def single_flow_retries : Nat := 3

/-- Backoff schedule of the `@flow` decorator on
`single_acquisition_prediction_flow`. -/
def single_flow_retry_delay_seconds : List Nat := [30, 60, 120, 240]

/-- `task_acquisition_prediction_flow`: three `with acquire_gpu` blocks,
one per task.  The three acquisitions see the external limiter as it is at
that moment (`l1`, `l2`, `l3`); `f` is the random-draw stream.  Returns
the flow's Python return value (`none`, no `return` statement), the event
trace, and the printed lines. -/
def task_acquisition_prediction_flow (env : Env)
    (l1 l2 l3 : String → ProbeOutcome) (f : Nat → Nat) :
    Except Exc (Option String) × List Event × List String :=
  match env.workerId with
  | none =>
    (.error (.valueError "WORKER_ID environment variable is not set - cannot acquire GPU"), [], [])
  | some wid =>
    match get_worker_gpu_ids env with
    | .error e => (.error e, [], [])
    | .ok gpuIds =>
      let cands := gpuIds.map fun g => (g, mkLimiterName wid g)
      match probeForGpu wid l1 cands with
      | (es1, .error e) => (.error e, es1, [])
      | (es1, .ok (g1, n1, _)) =>
        let (data, k1) := pre_processing g1 30 f 0
        let ev1 := es1 ++ [.yld g1, .work "pre_processing", .rel n1]
        match probeForGpu wid l2 cands with
        | (es2, .error e) => (.error e, ev1 ++ es2, [])
        | (es2, .ok (g2, n2, _)) =>
          let (prediction, k2) := predict g2 data 30 f k1
          let ev2 := ev1 ++ es2 ++ [.yld g2, .work "predict", .rel n2]
          match probeForGpu wid l3 cands with
          | (es3, .error e) => (.error e, ev2 ++ es3, [])
          | (es3, .ok (g3, n3, _)) =>
            let (printed, _) := post_processing g3 prediction 30 f k2
            (.ok none, ev2 ++ es3 ++ [.yld g3, .work "post_processing", .rel n3], [printed])

/-- `single_acquisition_prediction_flow`: one `with acquire_gpu` block
around all three tasks. -/
def single_acquisition_prediction_flow (env : Env)
    (l : String → ProbeOutcome) (f : Nat → Nat) :
    Except Exc (Option String) × List Event × List String :=
  match env.workerId with
  | none =>
    (.error (.valueError "WORKER_ID environment variable is not set - cannot acquire GPU"), [], [])
  | some wid =>
    match get_worker_gpu_ids env with
    | .error e => (.error e, [], [])
    | .ok gpuIds =>
      let cands := gpuIds.map fun g => (g, mkLimiterName wid g)
      match probeForGpu wid l cands with
      | (es, .error e) => (.error e, es, [])
      | (es, .ok (g, n, _)) =>
        let (data, k1) := pre_processing g 30 f 0
        let (prediction, k2) := predict g data 30 f k1
        let (printed, _) := post_processing g prediction 30 f k2
        (.ok none,
          es ++ [.yld g, .work "pre_processing", .work "predict", .work "post_processing", .rel n],
          [printed])

/-- Events produced by a run of contention skips: one probe and one
busy-log per candidate, in declared order. -/
def busyEvents : List (Int × String) → List Event
  | [] => []
  | (gid, name) :: rest => .probe name :: .logBusy gid :: busyEvents rest

theorem countProbe_busyEvents : ∀ cs : List (Int × String), countProbe (busyEvents cs) = cs.length
  | [] => rfl
  | (g, n) :: rest => by
    simp [busyEvents, countProbe, List.countP_cons]
    have := countProbe_busyEvents rest
    simp [countProbe] at this
    omega

theorem busyEvents_neutral : ∀ cs : List (Int × String), ∀ e ∈ busyEvents cs, heldDelta e = 0
  | (g, n) :: rest, e, he => by
    simp [busyEvents] at he
    rcases he with rfl | rfl | he
    · rfl
    · rfl
    · exact busyEvents_neutral rest e he

/-- A trace of neutral events (no acquisitions, no releases) has zero
counts for every accounting function. -/
theorem neutral_counts (es : List Event) (h : ∀ e ∈ es, heldDelta e = 0) :
    countAcq es = 0 ∧ countRel es = 0
    ∧ (∀ n, countAcqName n es = 0) ∧ (∀ n, countRelName n es = 0) := by
  refine ⟨?_, ?_, fun n => ?_, fun n => ?_⟩ <;>
    · simp only [countAcq, countRel, countAcqName, countRelName]
      rw [List.countP_eq_zero]
      intro e he
      have := h e he
      cases e <;> simp_all [heldDelta]

theorem heldAfter_eq_counts : ∀ es : List Event,
    heldAfter es = (countAcq es : Int) - (countRel es : Int) := by
  have key : ∀ es : List Event, ∀ a : Int,
      es.foldl (fun h e => h + heldDelta e) a
        = a + (countAcq es : Int) - (countRel es : Int) := by
    intro es
    induction es with
    | nil => intro a; simp [countAcq, countRel]
    | cons e es ih =>
      intro a
      rw [List.foldl_cons, ih (a + heldDelta e)]
      simp only [countAcq, countRel, List.countP_cons]
      cases e <;> simp [heldDelta] <;> omega
  intro es
  have := key es 0
  simpa [heldAfter] using this

theorem maxHeldAux_neutral : ∀ es : List Event, ∀ rest : List Event, ∀ h m : Int,
    (∀ e ∈ es, heldDelta e = 0) → h ≤ m →
    maxHeldAux (es ++ rest) h m = maxHeldAux rest h m
  | [], rest, h, m, _, _ => rfl
  | e :: es, rest, h, m, hn, hm => by
    have he : heldDelta e = 0 := hn e (by simp)
    simp only [List.cons_append, maxHeldAux, he, add_zero, max_eq_left hm]
    exact maxHeldAux_neutral es rest h m (fun x hx => hn x (by simp [hx])) hm

theorem probeForGpu_nil (wid : String) (limiter : String → ProbeOutcome) :
    probeForGpu wid limiter []
      = ([], .error (.runtimeError ("No available GPUs on worker " ++ wid))) := rfl

theorem probeForGpu_cons_acquired (wid : String) (limiter : String → ProbeOutcome)
    (g : Int) (n : String) (rest : List (Int × String)) (hl : limiter n = .acquired) :
    probeForGpu wid limiter ((g, n) :: rest) = ([.probe n, .acq n], .ok (g, n, rest)) := by
  simp [probeForGpu, hl]

theorem probeForGpu_cons_contention (wid : String) (limiter : String → ProbeOutcome)
    (g : Int) (n : String) (rest : List (Int × String)) (e : Exc)
    (hl : limiter n = .raises e) (hc : isContention e = true) :
    probeForGpu wid limiter ((g, n) :: rest)
      = (.probe n :: .logBusy g :: (probeForGpu wid limiter rest).1,
         (probeForGpu wid limiter rest).2) := by
  simp [probeForGpu, hl, hc]

theorem probeForGpu_cons_fatal (wid : String) (limiter : String → ProbeOutcome)
    (g : Int) (n : String) (rest : List (Int × String)) (e : Exc)
    (hl : limiter n = .raises e) (hc : isContention e = false) :
    probeForGpu wid limiter ((g, n) :: rest) = ([.probe n], .error e) := by
  simp [probeForGpu, hl, hc]

/-- The probe loop only emits probe and busy-log events when it ends in an
error (exhaustion or a propagated non-contention exception). -/
theorem probeForGpu_error_neutral (wid : String) (limiter : String → ProbeOutcome) :
    ∀ cs es e, probeForGpu wid limiter cs = (es, .error e) →
    ∀ ev ∈ es, heldDelta ev = 0 := by
  intro cs
  induction cs with
  | nil =>
    intro es e h
    rw [probeForGpu_nil] at h
    cases h
    simp
  | cons c rest ih =>
    obtain ⟨g, n⟩ := c
    intro es e h
    cases hl : limiter n with
    | acquired =>
      rw [probeForGpu_cons_acquired wid limiter g n rest hl] at h
      cases h
    | raises e2 =>
      cases hc : isContention e2 with
      | false =>
        rw [probeForGpu_cons_fatal wid limiter g n rest e2 hl hc] at h
        cases h
        intro ev hev
        simp at hev
        subst hev
        rfl
      | true =>
        rw [probeForGpu_cons_contention wid limiter g n rest e2 hl hc] at h
        obtain ⟨h1, h2⟩ := Prod.mk.injEq _ _ _ _ ▸ h
        intro ev hev
        rw [← h1] at hev
        simp only [List.mem_cons] at hev
        rcases hev with rfl | rfl | hev
        · rfl
        · rfl
        · exact ih (probeForGpu wid limiter rest).1 e
            (by rw [← h2]) ev hev

/-- When every candidate's probe raises a contention exception, the loop
walks the whole list in declared order and ends exhausted. -/
theorem probeForGpu_all_contention (wid : String) (limiter : String → ProbeOutcome) :
    ∀ cs : List (Int × String), (∀ c ∈ cs, contentionOutcome (limiter c.2)) →
    probeForGpu wid limiter cs
      = (busyEvents cs, .error (.runtimeError ("No available GPUs on worker " ++ wid))) := by
  intro cs
  induction cs with
  | nil => intro _; rfl
  | cons c rest ih =>
    obtain ⟨g, n⟩ := c
    intro h
    have hn : contentionOutcome (limiter n) = true := h (g, n) (by simp)
    cases hl : limiter n with
    | acquired => rw [hl] at hn; simp [contentionOutcome] at hn
    | raises e =>
      rw [hl] at hn
      rw [probeForGpu_cons_contention wid limiter g n rest e hl hn,
        ih (fun c hc => h c (by simp [hc]))]
      rfl

/-- First-fit: a prefix of contention outcomes followed by a free slot
probes exactly the prefix plus the free candidate, acquiring the latter
and leaving the remaining candidates unprobed. -/
theorem probeForGpu_firstFree (wid : String) (limiter : String → ProbeOutcome) :
    ∀ (busyPre : List (Int × String)) (g : Int) (n : String) (post : List (Int × String)),
    (∀ c ∈ busyPre, contentionOutcome (limiter c.2)) → limiter n = .acquired →
    probeForGpu wid limiter (busyPre ++ (g, n) :: post)
      = (busyEvents busyPre ++ [.probe n, .acq n], .ok (g, n, post)) := by
  intro busyPre
  induction busyPre with
  | nil =>
    intro g n post _ hfree
    simpa using probeForGpu_cons_acquired wid limiter g n post hfree
  | cons c rest ih =>
    obtain ⟨g0, n0⟩ := c
    intro g n post h hfree
    have hn : contentionOutcome (limiter n0) = true := h (g0, n0) (by simp)
    cases hl : limiter n0 with
    | acquired => rw [hl] at hn; simp [contentionOutcome] at hn
    | raises e =>
      rw [hl] at hn
      rw [List.cons_append, probeForGpu_cons_contention wid limiter g0 n0 _ e hl hn,
        ih g n post (fun c hc => h c (by simp [hc])) hfree]
      simp [busyEvents]

/-- A prefix of contention outcomes followed by a probe raising a
non-contention exception aborts the loop at that candidate, propagating
the exception with no further probes. -/
theorem probeForGpu_abortRaise (wid : String) (limiter : String → ProbeOutcome) :
    ∀ (busyPre : List (Int × String)) (g : Int) (n : String) (post : List (Int × String)) (e : Exc),
    (∀ c ∈ busyPre, contentionOutcome (limiter c.2)) →
    limiter n = .raises e → isContention e = false →
    probeForGpu wid limiter (busyPre ++ (g, n) :: post)
      = (busyEvents busyPre ++ [.probe n], .error e) := by
  intro busyPre
  induction busyPre with
  | nil =>
    intro g n post e _ hraise hnc
    simpa using probeForGpu_cons_fatal wid limiter g n post e hraise hnc
  | cons c rest ih =>
    obtain ⟨g0, n0⟩ := c
    intro g n post e h hraise hnc
    have hn : contentionOutcome (limiter n0) = true := h (g0, n0) (by simp)
    cases hl : limiter n0 with
    | acquired => rw [hl] at hn; simp [contentionOutcome] at hn
    | raises e0 =>
      rw [hl] at hn
      rw [List.cons_append, probeForGpu_cons_contention wid limiter g0 n0 _ e0 hl hn,
        ih g n post e (fun c hc => h c (by simp [hc])) hraise hnc]
      simp [busyEvents]

/-- A successful probe run decomposes as a neutral busy-skip segment
followed by the probe and acquisition of the found candidate. -/
theorem probeForGpu_ok_decomp (wid : String) (limiter : String → ProbeOutcome) :
    ∀ cs es g n rest, probeForGpu wid limiter cs = (es, .ok (g, n, rest)) →
    ∃ es0, es = es0 ++ [.probe n, .acq n] ∧ (∀ ev ∈ es0, heldDelta ev = 0)
      ∧ limiter n = .acquired := by
  intro cs
  induction cs with
  | nil => intro es g n rest h; rw [probeForGpu_nil] at h; cases h
  | cons c cs2 ih =>
    obtain ⟨g0, n0⟩ := c
    intro es g n rest h
    cases hl : limiter n0 with
    | acquired =>
      rw [probeForGpu_cons_acquired wid limiter g0 n0 cs2 hl] at h
      obtain ⟨h1, h2⟩ := Prod.mk.injEq _ _ _ _ ▸ h
      cases h2
      exact ⟨[], by simpa using h1.symm, by simp, hl⟩
    | raises e =>
      cases hc : isContention e with
      | false =>
        rw [probeForGpu_cons_fatal wid limiter g0 n0 cs2 e hl hc] at h
        cases h
      | true =>
        rw [probeForGpu_cons_contention wid limiter g0 n0 cs2 e hl hc] at h
        obtain ⟨h1, h2⟩ := Prod.mk.injEq _ _ _ _ ▸ h
        obtain ⟨es0, he, hne, hacq⟩ := ih (probeForGpu wid limiter cs2).1 g n rest (by rw [← h2])
        refine ⟨.probe n0 :: .logBusy g0 :: es0, ?_, ?_, hacq⟩
        · rw [← h1, he]; simp
        · intro ev hev
          simp only [List.mem_cons] at hev
          rcases hev with rfl | rfl | hev
          · rfl
          · rfl
          · exact hne ev hev

/-- The probe loop issues at most one probe per candidate list entry. -/
theorem probeForGpu_countProbe_le (wid : String) (limiter : String → ProbeOutcome) :
    ∀ cs : List (Int × String), countProbe (probeForGpu wid limiter cs).1 ≤ cs.length := by
  intro cs
  induction cs with
  | nil => simp [probeForGpu_nil, countProbe]
  | cons c rest ih =>
    obtain ⟨g, n⟩ := c
    cases hl : limiter n with
    | acquired => simp [probeForGpu_cons_acquired wid limiter g n rest hl, countProbe]
    | raises e =>
      cases hc : isContention e with
      | false => simp [probeForGpu_cons_fatal wid limiter g n rest e hl hc, countProbe]
      | true =>
        rw [probeForGpu_cons_contention wid limiter g n rest e hl hc]
        simp only [countProbe, List.countP_cons] at ih ⊢
        simp
        omega

/-- A successful probe run accounts for every candidate: probes issued
plus candidates never reached equals the list length. -/
theorem probeForGpu_ok_countProbe (wid : String) (limiter : String → ProbeOutcome) :
    ∀ cs es g n rest, probeForGpu wid limiter cs = (es, .ok (g, n, rest)) →
    countProbe es + rest.length = cs.length := by
  intro cs
  induction cs with
  | nil => intro es g n rest h; rw [probeForGpu_nil] at h; cases h
  | cons c cs2 ih =>
    obtain ⟨g0, n0⟩ := c
    intro es g n rest h
    cases hl : limiter n0 with
    | acquired =>
      rw [probeForGpu_cons_acquired wid limiter g0 n0 cs2 hl] at h
      obtain ⟨h1, h2⟩ := Prod.mk.injEq _ _ _ _ ▸ h
      cases h2
      rw [← h1]
      simp [countProbe]
      omega
    | raises e =>
      cases hc : isContention e with
      | false =>
        rw [probeForGpu_cons_fatal wid limiter g0 n0 cs2 e hl hc] at h
        cases h
      | true =>
        rw [probeForGpu_cons_contention wid limiter g0 n0 cs2 e hl hc] at h
        obtain ⟨h1, h2⟩ := Prod.mk.injEq _ _ _ _ ▸ h
        have := ih (probeForGpu wid limiter cs2).1 g n rest (by rw [← h2])
        rw [← h1]
        simp only [countProbe, List.countP_cons] at this ⊢
        simp at this ⊢
        omega

/-- An erroring probe loop never ends with a contention exception: it ends
with the exhaustion `RuntimeError` or with a propagated non-contention
exception. -/
theorem probeForGpu_err_not_contention (wid : String) (limiter : String → ProbeOutcome) :
    ∀ cs es e, probeForGpu wid limiter cs = (es, .error e) → isContention e = false := by
  intro cs
  induction cs with
  | nil =>
    intro es e h
    rw [probeForGpu_nil] at h
    obtain ⟨-, h2⟩ := Prod.mk.injEq _ _ _ _ ▸ h
    cases h2
    rfl
  | cons c cs2 ih =>
    obtain ⟨g0, n0⟩ := c
    intro es e h
    cases hl : limiter n0 with
    | acquired =>
      rw [probeForGpu_cons_acquired wid limiter g0 n0 cs2 hl] at h
      cases h
    | raises e0 =>
      cases hc : isContention e0 with
      | false =>
        rw [probeForGpu_cons_fatal wid limiter g0 n0 cs2 e0 hl hc] at h
        obtain ⟨-, h2⟩ := Prod.mk.injEq _ _ _ _ ▸ h
        cases h2
        exact hc
      | true =>
        rw [probeForGpu_cons_contention wid limiter g0 n0 cs2 e0 hl hc] at h
        obtain ⟨-, h2⟩ := Prod.mk.injEq _ _ _ _ ▸ h
        exact ih (probeForGpu wid limiter cs2).1 e (by rw [← h2])

theorem acquireScope_probeError (wid : String) (limiter : String → ProbeOutcome)
    (body : Int → Option Exc) (cands : List (Int × String)) (es : List Event) (e : Exc)
    (hp : probeForGpu wid limiter cands = (es, .error e)) :
    acquireScope wid limiter body cands = (.error e, es) := by
  simp [acquireScope, hp]

theorem acquireScope_ok_normal (wid : String) (limiter : String → ProbeOutcome)
    (body : Int → Option Exc) (cands : List (Int × String)) (es : List Event)
    (g : Int) (n : String) (rest : List (Int × String))
    (hp : probeForGpu wid limiter cands = (es, .ok (g, n, rest))) (hb : body g = none) :
    acquireScope wid limiter body cands = (.ok (), es ++ [.yld g, .rel n]) := by
  simp [acquireScope, hp, hb]

theorem acquireScope_ok_fatalBody (wid : String) (limiter : String → ProbeOutcome)
    (body : Int → Option Exc) (cands : List (Int × String)) (es : List Event)
    (g : Int) (n : String) (rest : List (Int × String)) (e : Exc)
    (hp : probeForGpu wid limiter cands = (es, .ok (g, n, rest)))
    (hb : body g = some e) (hc : isContention e = false) :
    acquireScope wid limiter body cands = (.error e, es ++ [.yld g, .rel n]) := by
  simp [acquireScope, hp, hb, hc]

theorem acquireScope_ok_contentionBody_err (wid : String) (limiter : String → ProbeOutcome)
    (body : Int → Option Exc) (cands : List (Int × String)) (es es2 : List Event)
    (g : Int) (n : String) (rest : List (Int × String)) (e e2 : Exc)
    (hp : probeForGpu wid limiter cands = (es, .ok (g, n, rest)))
    (hb : body g = some e) (hc : isContention e = true)
    (hp2 : probeForGpu wid limiter rest = (es2, .error e2)) :
    acquireScope wid limiter body cands
      = (.error e2, es ++ [.yld g, .rel n, .logBusy g] ++ es2) := by
  simp [acquireScope, hp, hb, hc, hp2]

theorem acquireScope_ok_contentionBody_ok (wid : String) (limiter : String → ProbeOutcome)
    (body : Int → Option Exc) (cands : List (Int × String)) (es es2 : List Event)
    (g : Int) (n : String) (rest : List (Int × String)) (e : Exc)
    (x : Int × String × List (Int × String))
    (hp : probeForGpu wid limiter cands = (es, .ok (g, n, rest)))
    (hb : body g = some e) (hc : isContention e = true)
    (hp2 : probeForGpu wid limiter rest = (es2, .ok x)) :
    acquireScope wid limiter body cands
      = (.error (.runtimeError "generator didn\x27t stop after throw()"),
         es ++ [.yld g, .rel n, .logBusy g] ++ es2) := by
  simp [acquireScope, hp, hb, hc, hp2]

/-- Bounded probing: one acquisition scope issues at most one probe per
declared candidate, on every path (including the resumed probing after a
contention exception thrown by the protected block). -/
theorem acquireScope_countProbe_le (wid : String) (limiter : String → ProbeOutcome)
    (body : Int → Option Exc) (cands : List (Int × String)) :
    countProbe (acquireScope wid limiter body cands).2 ≤ cands.length := by
  rcases hp : probeForGpu wid limiter cands with ⟨es, r⟩
  cases r with
  | error e =>
    rw [acquireScope_probeError wid limiter body cands es e hp]
    have := probeForGpu_countProbe_le wid limiter cands
    rw [hp] at this
    exact this
  | ok v =>
    obtain ⟨g, n, rest⟩ := v
    have hk := probeForGpu_ok_countProbe wid limiter cands es g n rest hp
    cases hb : body g with
    | none =>
      rw [acquireScope_ok_normal wid limiter body cands es g n rest hp hb]
      simp only [countProbe, List.countP_append]
      simp [countProbe] at hk ⊢
      omega
    | some e =>
      cases hc : isContention e with
      | false =>
        rw [acquireScope_ok_fatalBody wid limiter body cands es g n rest e hp hb hc]
        simp only [countProbe, List.countP_append]
        simp [countProbe] at hk ⊢
        omega
      | true =>
        have h2 := probeForGpu_countProbe_le wid limiter rest
        rcases hp2 : probeForGpu wid limiter rest with ⟨es2, r2⟩
        rw [hp2] at h2
        cases r2 with
        | error e2 =>
          rw [acquireScope_ok_contentionBody_err wid limiter body cands es es2 g n rest e e2
            hp hb hc hp2]
          simp only [countProbe, List.countP_append]
          simp [countProbe] at hk h2 ⊢
          omega
        | ok x =>
          rw [acquireScope_ok_contentionBody_ok wid limiter body cands es es2 g n rest e x
            hp hb hc hp2]
          simp only [countProbe, List.countP_append]
          simp [countProbe] at hk h2 ⊢
          omega

/-- Whatever the limiter and the protected block do, the caller never sees
one of the two contention exceptions escape the acquisition scope. -/
theorem acquireScope_result_not_contention (wid : String) (limiter : String → ProbeOutcome)
    (body : Int → Option Exc) (cands : List (Int × String)) (e : Exc)
    (he : isContention e = true) :
    (acquireScope wid limiter body cands).1 ≠ .error e := by
  rcases hp : probeForGpu wid limiter cands with ⟨es, r⟩
  cases r with
  | error e2 =>
    rw [acquireScope_probeError wid limiter body cands es e2 hp]
    have := probeForGpu_err_not_contention wid limiter cands es e2 hp
    intro hcontra
    simp at hcontra
    rw [hcontra] at this
    rw [this] at he
    cases he
  | ok v =>
    obtain ⟨g, n, rest⟩ := v
    cases hb : body g with
    | none =>
      rw [acquireScope_ok_normal wid limiter body cands es g n rest hp hb]
      simp
    | some e0 =>
      cases hc : isContention e0 with
      | false =>
        rw [acquireScope_ok_fatalBody wid limiter body cands es g n rest e0 hp hb hc]
        intro hcontra
        simp at hcontra
        rw [hcontra] at hc
        rw [hc] at he
        cases he
      | true =>
        rcases hp2 : probeForGpu wid limiter rest with ⟨es2, r2⟩
        cases r2 with
        | error e2 =>
          rw [acquireScope_ok_contentionBody_err wid limiter body cands es es2 g n rest e0 e2
            hp hb hc hp2]
          have := probeForGpu_err_not_contention wid limiter rest es2 e2 hp2
          intro hcontra
          simp at hcontra
          rw [hcontra] at this
          rw [this] at he
          cases he
        | ok x =>
          rw [acquireScope_ok_contentionBody_ok wid limiter body cands es es2 g n rest e0 x
            hp hb hc hp2]
          intro hcontra
          simp at hcontra
          rw [← hcontra] at he
          cases he

/-- `acquire_gpu` with every candidate's limiter slot busy: the whole
candidate list is probed in declared order, no slot is acquired, and the
exhaustion error names the worker. -/
theorem acquire_gpu_all_busy (env : Env) (wid : String) (gpuIds : List Int)
    (limiter : String → ProbeOutcome) (body : Int → Option Exc)
    (hwid : env.workerId = some wid) (hids : get_worker_gpu_ids env = .ok gpuIds)
    (hbusy : ∀ g2 ∈ gpuIds, contentionOutcome (limiter (mkLimiterName wid g2))) :
    acquire_gpu env limiter body
      = (.error (.runtimeError ("No available GPUs on worker " ++ wid)),
         busyEvents (gpuIds.map fun g2 => (g2, mkLimiterName wid g2))) := by
  have h2 : ∀ c ∈ gpuIds.map (fun g2 => (g2, mkLimiterName wid g2)),
      contentionOutcome (limiter c.2) := by
    intro c hc
    simp only [List.mem_map] at hc
    obtain ⟨g2, hg2, rfl⟩ := hc
    exact hbusy g2 hg2
  rw [acquire_gpu, hwid]
  rw [hids]
  exact acquireScope_probeError wid limiter body _ _ _
    (probeForGpu_all_contention wid limiter _ h2)

/-- Release accounting of one acquisition scope: no limiter name is ever
released more often than it was acquired; and when the protected block
never raises a contention exception, every name is released exactly as
often as it was acquired before control leaves the scope. -/
theorem acquireScope_release_balance (wid : String) (limiter : String → ProbeOutcome)
    (body : Int → Option Exc) (cands : List (Int × String)) :
    (∀ n, countRelName n (acquireScope wid limiter body cands).2
        ≤ countAcqName n (acquireScope wid limiter body cands).2)
    ∧ ((∀ g2 e, body g2 = some e → isContention e = false) →
        ∀ n, countRelName n (acquireScope wid limiter body cands).2
          = countAcqName n (acquireScope wid limiter body cands).2) := by
  rcases hp : probeForGpu wid limiter cands with ⟨es, r⟩
  cases r with
  | error e =>
    rw [acquireScope_probeError wid limiter body cands es e hp]
    have hne := probeForGpu_error_neutral wid limiter cands es e hp
    have hz := neutral_counts es hne
    exact ⟨fun n => by rw [hz.2.2.1 n, hz.2.2.2 n], fun _ n => by rw [hz.2.2.1 n, hz.2.2.2 n]⟩
  | ok v =>
    obtain ⟨g, n0, rest⟩ := v
    obtain ⟨es0, hdecomp, hne0, -⟩ := probeForGpu_ok_decomp wid limiter cands es g n0 rest hp
    have hz0 := neutral_counts es0 hne0
    cases hb : body g with
    | none =>
      rw [acquireScope_ok_normal wid limiter body cands es g n0 rest hp hb, hdecomp]
      constructor
      · intro n
        have h1 := hz0.2.2.1 n
        have h2 := hz0.2.2.2 n
        simp only [countAcqName, countRelName] at h1 h2 ⊢
        simp [List.countP_append, List.countP_cons, h1, h2]
      · intro _ n
        have h1 := hz0.2.2.1 n
        have h2 := hz0.2.2.2 n
        simp only [countAcqName, countRelName] at h1 h2 ⊢
        simp [List.countP_append, List.countP_cons, h1, h2]
    | some e =>
      cases hc : isContention e with
      | false =>
        rw [acquireScope_ok_fatalBody wid limiter body cands es g n0 rest e hp hb hc, hdecomp]
        constructor
        · intro n
          have h1 := hz0.2.2.1 n
          have h2 := hz0.2.2.2 n
          simp only [countAcqName, countRelName] at h1 h2 ⊢
          simp [List.countP_append, List.countP_cons, h1, h2]
        · intro _ n
          have h1 := hz0.2.2.1 n
          have h2 := hz0.2.2.2 n
          simp only [countAcqName, countRelName] at h1 h2 ⊢
          simp [List.countP_append, List.countP_cons, h1, h2]
      | true =>
        rcases hp2 : probeForGpu wid limiter rest with ⟨es2, r2⟩
        have hside : ∀ n, countRelName n es2 = 0 ∧ countAcqName n es2 ≥ countRelName n es2 := by
          cases r2 with
          | error e2 =>
            have hne2 := probeForGpu_error_neutral wid limiter rest es2 e2 hp2
            have hz2 := neutral_counts es2 hne2
            exact fun n => ⟨hz2.2.2.2 n, by rw [hz2.2.2.2 n]; exact Nat.zero_le _⟩
          | ok x =>
            obtain ⟨g2, n2, rest2⟩ := x
            obtain ⟨es20, hdec2, hne20, -⟩ :=
              probeForGpu_ok_decomp wid limiter rest es2 g2 n2 rest2 hp2
            have hz20 := neutral_counts es20 hne20
            intro n
            have h1 := hz20.2.2.1 n
            have h2 := hz20.2.2.2 n
            simp only [countAcqName, countRelName] at h1 h2 ⊢
            rw [hdec2]
            simp [List.countP_append, List.countP_cons, h1, h2]
        constructor
        · intro n
          have hrel2 := (hside n).1
          cases r2 with
          | error e2 =>
            rw [acquireScope_ok_contentionBody_err wid limiter body cands es es2 g n0 rest e e2
              hp hb hc hp2, hdecomp]
            have h1 := hz0.2.2.1 n
            have h2 := hz0.2.2.2 n
            have h3 := (hside n).2
            simp only [countAcqName, countRelName] at h1 h2 h3 hrel2 ⊢
            simp [List.countP_append, List.countP_cons, h1, h2, hrel2]
          | ok x =>
            rw [acquireScope_ok_contentionBody_ok wid limiter body cands es es2 g n0 rest e x
              hp hb hc hp2, hdecomp]
            have h1 := hz0.2.2.1 n
            have h2 := hz0.2.2.2 n
            have h3 := (hside n).2
            simp only [countAcqName, countRelName] at h1 h2 h3 hrel2 ⊢
            simp [List.countP_append, List.countP_cons, h1, h2, hrel2]
        · intro hnc
          exact absurd hc (by rw [hnc g e hb]; simp)

/-- C1: for every worker identity and declared resource-id list,
`acquire_gpu` probes the candidates strictly in declared order and, at the
first candidate whose limiter slot is free, acquires it and yields its
resource id immediately, probing no later candidate: the full trace is the
busy skips of the declared prefix followed by the probe, acquisition,
yield and release of the first free candidate, and the scope completes
normally. -/
theorem C1_first_fit_declared_order (env : Env) (wid : String) (gpuIds : List Int)
    (limiter : String → ProbeOutcome) (busyPre post : List (Int × String))
    (g : Int) (n : String)
    (hwid : env.workerId = some wid)
    (hids : get_worker_gpu_ids env = .ok gpuIds)
    (hsplit : gpuIds.map (fun g2 => (g2, mkLimiterName wid g2)) = busyPre ++ (g, n) :: post)
    (hbusy : ∀ c ∈ busyPre, contentionOutcome (limiter c.2))
    (hfree : limiter n = .acquired) :
    acquire_gpu env limiter (fun _ => none)
      = (.ok (), busyEvents busyPre ++ [.probe n, .acq n, .yld g, .rel n]) := by
  simp only [acquire_gpu, hwid, hids]
  rw [hsplit]
  rw [acquireScope_ok_normal wid limiter _ _ _ g n post
    (probeForGpu_firstFree wid limiter busyPre g n post hbusy hfree) rfl]
  simp

/-- C1 witness: Scenario A — worker `worker-1`, resources `0,1`, limiter
`gpu-worker-1-0` busy and `gpu-worker-1-1` free: the probe skips resource
0 and the scope runs with resource 1. -/
theorem C1_witness :
    acquire_gpu ⟨some "worker-1", some "0,1"⟩
      (fun n => if n = "gpu-worker-1-0" then .raises .acquireTimeout else .acquired)
      (fun _ => none)
      = (.ok (), [.probe "gpu-worker-1-0", .logBusy 0,
          .probe "gpu-worker-1-1", .acq "gpu-worker-1-1", .yld 1, .rel "gpu-worker-1-1"]) :=
  C1_first_fit_declared_order ⟨some "worker-1", some "0,1"⟩ "worker-1" [0, 1]
    (fun n => if n = "gpu-worker-1-0" then .raises .acquireTimeout else .acquired)
    [(0, "gpu-worker-1-0")] [] 1 "gpu-worker-1-1"
    rfl (by decide) (by decide) (by decide) (by decide)

/-- C3 counterexample: the claim says the exhaustion error names the
worker and the full candidate set; for worker `worker-1` with candidates
`[0,1]` both busy, the error message is exactly
`"No available GPUs on worker worker-1"`, which does not even contain the
character `0`, so candidate `0` is not referenced anywhere in it. -/
theorem C3_counterexample :
    (acquire_gpu ⟨some "worker-1", some "0,1"⟩
        (fun _ => .raises .acquireTimeout) (fun _ => none)).1
      = .error (.runtimeError "No available GPUs on worker worker-1")
    ∧ '0' ∉ "No available GPUs on worker worker-1".data := by
  constructor
  · decide
  · decide

/-- C3 amended: when every candidate's probe ends in contention, the run
fails with `RuntimeError` whose message names the worker identity (the
candidate ids appear only in the busy-skip log events of the trace, not in
the error). -/
theorem C3_exhaustion_names_worker (env : Env) (wid : String) (gpuIds : List Int)
    (limiter : String → ProbeOutcome) (body : Int → Option Exc)
    (hwid : env.workerId = some wid) (hids : get_worker_gpu_ids env = .ok gpuIds)
    (hbusy : ∀ g2 ∈ gpuIds, contentionOutcome (limiter (mkLimiterName wid g2))) :
    (acquire_gpu env limiter body).1
      = .error (.runtimeError ("No available GPUs on worker " ++ wid)) := by
  rw [acquire_gpu_all_busy env wid gpuIds limiter body hwid hids hbusy]

/-- C3 witness: Scenario B at worker `worker-1`, both candidates busy. -/
theorem C3_witness :
    (acquire_gpu ⟨some "worker-1", some "0,1"⟩
        (fun _ => .raises .slotAcquisition) (fun _ => none)).1
      = .error (.runtimeError ("No available GPUs on worker " ++ "worker-1")) :=
  C3_exhaustion_names_worker ⟨some "worker-1", some "0,1"⟩ "worker-1" [0, 1]
    (fun _ => .raises .slotAcquisition) (fun _ => none) rfl (by decide) (by decide)

/-- C4: with all N candidates busy, `acquire_gpu` probes each candidate
exactly once in declared order, acquires nothing, holds nothing
afterwards, and fails with the exhaustion error; and on every limiter
state and protected-block behaviour it issues at most N probes (no
retries). -/
theorem C4_bounded_probes (env : Env) (wid : String) (gpuIds : List Int)
    (limiter : String → ProbeOutcome) (body : Int → Option Exc)
    (hwid : env.workerId = some wid) (hids : get_worker_gpu_ids env = .ok gpuIds)
    (hbusy : ∀ g2 ∈ gpuIds, contentionOutcome (limiter (mkLimiterName wid g2))) :
    (acquire_gpu env limiter body).1
      = .error (.runtimeError ("No available GPUs on worker " ++ wid))
    ∧ (acquire_gpu env limiter body).2
      = busyEvents (gpuIds.map fun g2 => (g2, mkLimiterName wid g2))
    ∧ countProbe (acquire_gpu env limiter body).2 = gpuIds.length
    ∧ countAcq (acquire_gpu env limiter body).2 = 0
    ∧ countRel (acquire_gpu env limiter body).2 = 0
    ∧ heldAfter (acquire_gpu env limiter body).2 = 0
    ∧ ∀ (limiter2 : String → ProbeOutcome) (body2 : Int → Option Exc),
        countProbe (acquire_gpu env limiter2 body2).2 ≤ gpuIds.length := by
  have hrun := acquire_gpu_all_busy env wid gpuIds limiter body hwid hids hbusy
  have hneutral := busyEvents_neutral (gpuIds.map fun g2 => (g2, mkLimiterName wid g2))
  have hz := neutral_counts _ hneutral
  refine ⟨by rw [hrun], by rw [hrun], ?_, ?_, ?_, ?_, ?_⟩
  · rw [hrun]
    rw [countProbe_busyEvents]
    simp
  · rw [hrun]; exact hz.1
  · rw [hrun]; exact hz.2.1
  · rw [hrun]
    rw [heldAfter_eq_counts, hz.1, hz.2.1]
    simp
  · intro limiter2 body2
    rw [acquire_gpu, hwid, hids]
    have := acquireScope_countProbe_le wid limiter2 body2
      (gpuIds.map fun g2 => (g2, mkLimiterName wid g2))
    simpa using this

/-- C4 witness: Scenario B — two candidates, both busy: exactly two
probes, no acquisition, nothing held, exhaustion error. -/
theorem C4_witness :
    (acquire_gpu ⟨some "worker-1", some "0,1"⟩
        (fun _ => .raises .acquireTimeout) (fun _ => none)).1
      = .error (.runtimeError ("No available GPUs on worker " ++ "worker-1"))
    ∧ countProbe (acquire_gpu ⟨some "worker-1", some "0,1"⟩
        (fun _ => .raises .acquireTimeout) (fun _ => none)).2 = 2 := by
  have h := C4_bounded_probes ⟨some "worker-1", some "0,1"⟩ "worker-1" [0, 1]
    (fun _ => .raises .acquireTimeout) (fun _ => none) rfl (by decide) (by decide)
  exact ⟨h.1, h.2.2.1⟩

/-- C5: only contention outcomes lead to trying the next candidate; a
probe raising any non-contention exception aborts the loop at that
candidate and propagates the exception itself, with no later candidate
probed and no slot acquired. -/
theorem C5_fatal_abort (env : Env) (wid : String) (gpuIds : List Int)
    (limiter : String → ProbeOutcome) (body : Int → Option Exc)
    (busyPre post : List (Int × String)) (g : Int) (n : String) (e : Exc)
    (hwid : env.workerId = some wid) (hids : get_worker_gpu_ids env = .ok gpuIds)
    (hsplit : gpuIds.map (fun g2 => (g2, mkLimiterName wid g2)) = busyPre ++ (g, n) :: post)
    (hbusy : ∀ c ∈ busyPre, contentionOutcome (limiter c.2))
    (hraise : limiter n = .raises e) (hfatal : isContention e = false) :
    acquire_gpu env limiter body = (.error e, busyEvents busyPre ++ [.probe n]) := by
  simp only [acquire_gpu, hwid, hids]
  rw [hsplit]
  exact acquireScope_probeError wid limiter body _ _ _
    (probeForGpu_abortRaise wid limiter busyPre g n post e hbusy hraise hfatal)

/-- C5 witness: first candidate busy, second probe raises a
non-contention exception — the run aborts there, the third candidate is
never probed. -/
theorem C5_witness :
    acquire_gpu ⟨some "worker-1", some "0,1,2"⟩
      (fun n => if n = "gpu-worker-1-0" then .raises .acquireTimeout
        else if n = "gpu-worker-1-1" then .raises .otherExc else .acquired)
      (fun _ => none)
      = (.error .otherExc, [.probe "gpu-worker-1-0", .logBusy 0, .probe "gpu-worker-1-1"]) :=
  C5_fatal_abort ⟨some "worker-1", some "0,1,2"⟩ "worker-1" [0, 1, 2]
    (fun n => if n = "gpu-worker-1-0" then .raises .acquireTimeout
      else if n = "gpu-worker-1-1" then .raises .otherExc else .acquired)
    (fun _ => none) [(0, "gpu-worker-1-0")] [(2, "gpu-worker-1-2")] 1 "gpu-worker-1-1" .otherExc
    rfl (by decide) (by decide) (by decide) (by decide) (by decide)

/-- C2 counterexample: worker `w` with resources `0,1`, both slots free,
and a protected block that raises a contention exception when given
resource 0.  The probe loop swallows the exception and resumes: it
acquires `gpu-w-1` as well, and that second successful acquisition is
never released before control leaves the caller's scope (the abandoned
generator is released only at garbage collection), refuting the claim
that every successful acquisition is paired with exactly one release
before scope exit whenever the protected block raises an error. -/
theorem C2_counterexample :
    countAcqName "gpu-w-1" (acquire_gpu ⟨some "w", some "0,1"⟩ (fun _ => .acquired)
      (fun g2 => if g2 = 0 then some .acquireTimeout else none)).2 = 1
    ∧ countRelName "gpu-w-1" (acquire_gpu ⟨some "w", some "0,1"⟩ (fun _ => .acquired)
      (fun g2 => if g2 = 0 then some .acquireTimeout else none)).2 = 0 := by
  constructor
  · decide
  · decide

/-- C2 amended: no limiter name is ever released more often than it was
acquired (the external release is never doubled); and provided the
protected block never raises one of the two contention exception classes,
every acquired name is released exactly once before control leaves the
caller's scope — on normal completion and on any other raised error
alike. -/
theorem C2_release_balance (env : Env) (limiter : String → ProbeOutcome)
    (body : Int → Option Exc) :
    (∀ n, countRelName n (acquire_gpu env limiter body).2
        ≤ countAcqName n (acquire_gpu env limiter body).2)
    ∧ ((∀ g2 e, body g2 = some e → isContention e = false) →
        ∀ n, countRelName n (acquire_gpu env limiter body).2
          = countAcqName n (acquire_gpu env limiter body).2) := by
  cases hw : env.workerId with
  | none =>
    rw [acquire_gpu, hw]
    simp [countAcqName, countRelName]
  | some wid =>
    cases hi : get_worker_gpu_ids env with
    | error e =>
      rw [acquire_gpu, hw]
      rw [hi]
      simp [countAcqName, countRelName]
    | ok gpuIds =>
      rw [acquire_gpu, hw]
      rw [hi]
      exact acquireScope_release_balance wid limiter body _

/-- C2 witness: a normally-completing protected block on a free slot —
the one acquisition of `gpu-w-0` is matched by exactly one release. -/
theorem C2_witness :
    countRelName "gpu-w-0"
        (acquire_gpu ⟨some "w", some "0"⟩ (fun _ => .acquired) (fun _ => none)).2
      = countAcqName "gpu-w-0"
        (acquire_gpu ⟨some "w", some "0"⟩ (fun _ => .acquired) (fun _ => none)).2 :=
  (C2_release_balance ⟨some "w", some "0"⟩ (fun _ => .acquired) (fun _ => none)).2
    (fun _ e h => by simp at h) "gpu-w-0"

/-- C6 counterexample: an empty (but set) worker identity is accepted:
with `WORKER_ID=""` and `WORKER_GPU_IDS="0"` no `ValueError` is raised;
the limiter is probed (one `tryAcquire` against `gpu--0`) and the run ends
in the exhaustion `RuntimeError`, refuting the claim that an empty worker
identity fails with a configuration error before any limiter
interaction. -/
theorem C6_counterexample :
    acquire_gpu ⟨some "", some "0"⟩ (fun _ => .raises .acquireTimeout) (fun _ => none)
      = (.error (.runtimeError "No available GPUs on worker "),
         [.probe "gpu--0", .logBusy 0])
    ∧ countProbe [Event.probe "gpu--0", Event.logBusy 0] = 1 := by
  constructor
  · decide
  · decide

/-- C6 amended: configuration failures — an absent `WORKER_ID`, or an
absent or empty `WORKER_GPU_IDS`, or a resource list containing a
non-integer token — raise `ValueError` with an empty event trace: zero
limiter probes happen before the failure.  (An empty-but-set `WORKER_ID`
is accepted; see the counterexample.) -/
theorem C6_config_validation (env : Env) (limiter : String → ProbeOutcome)
    (body : Int → Option Exc)
    (hbad : env.workerId = none ∨ env.workerGpuIds.getD "" = ""
      ∨ parseIntList (pySplitComma (env.workerGpuIds.getD "")) = none) :
    ∃ msg, acquire_gpu env limiter body = (.error (.valueError msg), []) := by
  cases hw : env.workerId with
  | none =>
    refine ⟨"WORKER_ID environment variable is not set - cannot acquire GPU", ?_⟩
    rw [acquire_gpu, hw]
  | some wid =>
    rcases hbad with hbad | hbad | hbad
    · rw [hw] at hbad; cases hbad
    · refine ⟨"WORKER_GPU_IDS environment variable is not set.", ?_⟩
      rw [acquire_gpu, hw]
      rw [show get_worker_gpu_ids env
          = .error (.valueError "WORKER_GPU_IDS environment variable is not set.") from by
        rw [get_worker_gpu_ids, hbad]
        simp]
    · by_cases hraw : env.workerGpuIds.getD "" = ""
      · refine ⟨"WORKER_GPU_IDS environment variable is not set.", ?_⟩
        rw [acquire_gpu, hw]
        rw [show get_worker_gpu_ids env
            = .error (.valueError "WORKER_GPU_IDS environment variable is not set.") from by
          rw [get_worker_gpu_ids, hraw]
          simp]
      · refine ⟨"invalid literal for int() with base 10", ?_⟩
        rw [acquire_gpu, hw]
        rw [show get_worker_gpu_ids env
            = .error (.valueError "invalid literal for int() with base 10") from by
          rw [get_worker_gpu_ids]
          simp only [hraw, if_false, hbad]]

/-- C6 witness: `WORKER_GPU_IDS="0,x"` (non-integer token) fails with
`ValueError` and an empty trace — no limiter interaction. -/
theorem C6_witness :
    ∃ msg, acquire_gpu ⟨some "worker-1", some "0,x"⟩ (fun _ => .acquired) (fun _ => none)
      = (.error (.valueError msg), []) :=
  C6_config_validation ⟨some "worker-1", some "0,x"⟩ (fun _ => .acquired) (fun _ => none)
    (Or.inr (Or.inr (by decide)))

/-- C9: when the caller's protected block raises one of the two
contention exceptions, the scope does not propagate that exception to the
caller: the slot just used is released, the busy-skip line is logged for
the current resource, and the probe loop resumes over the remaining
candidates within the same `acquire_gpu` call (attempting a second
acquisition when one of them is free); whatever happens, the caller never
observes a contention exception escaping the scope. -/
theorem C9_body_contention_resumes (env : Env) (wid : String) (gpuIds : List Int)
    (limiter : String → ProbeOutcome) (body : Int → Option Exc)
    (busyPre post : List (Int × String)) (g : Int) (n : String) (e : Exc)
    (hwid : env.workerId = some wid) (hids : get_worker_gpu_ids env = .ok gpuIds)
    (hsplit : gpuIds.map (fun g2 => (g2, mkLimiterName wid g2)) = busyPre ++ (g, n) :: post)
    (hbusy : ∀ c ∈ busyPre, contentionOutcome (limiter c.2))
    (hfree : limiter n = .acquired)
    (hbody : body g = some e) (hcont : isContention e = true) :
    (acquire_gpu env limiter body).2
      = busyEvents busyPre ++ [.probe n, .acq n, .yld g, .rel n, .logBusy g]
          ++ (probeForGpu wid limiter post).1
    ∧ ∀ e2, isContention e2 = true → (acquire_gpu env limiter body).1 ≠ .error e2 := by
  have hpf := probeForGpu_firstFree wid limiter busyPre g n post hbusy hfree
  constructor
  · simp only [acquire_gpu, hwid, hids]
    rw [hsplit]
    rcases hp2 : probeForGpu wid limiter post with ⟨es2, r2⟩
    cases r2 with
    | error e2 =>
      rw [acquireScope_ok_contentionBody_err wid limiter body _ _ es2 g n post e e2
        hpf hbody hcont hp2]
      simp
    | ok x =>
      rw [acquireScope_ok_contentionBody_ok wid limiter body _ _ es2 g n post e x
        hpf hbody hcont hp2]
      simp
  · intro e2 he2
    simp only [acquire_gpu, hwid, hids]
    rw [hsplit]
    exact acquireScope_result_not_contention wid limiter body _ e2 he2

/-- C9 witness: worker `w`, resources `0,1`, both slots free, protected
block raising the contention timeout on resource 0: the trace shows the
release of `gpu-w-0`, the busy log, and the resumed probe acquiring
`gpu-w-1`; the contention exception does not reach the caller. -/
theorem C9_witness :
    (acquire_gpu ⟨some "w", some "0,1"⟩ (fun _ => .acquired)
        (fun g2 => if g2 = 0 then some .acquireTimeout else none)).2
      = [.probe "gpu-w-0", .acq "gpu-w-0", .yld 0, .rel "gpu-w-0", .logBusy 0,
         .probe "gpu-w-1", .acq "gpu-w-1"]
    ∧ (acquire_gpu ⟨some "w", some "0,1"⟩ (fun _ => .acquired)
        (fun g2 => if g2 = 0 then some .acquireTimeout else none)).1
      ≠ .error .acquireTimeout := by
  have h := C9_body_contention_resumes ⟨some "w", some "0,1"⟩ "w" [0, 1]
    (fun _ => .acquired) (fun g2 => if g2 = 0 then some .acquireTimeout else none)
    [] [(1, "gpu-w-1")] 0 "gpu-w-0" .acquireTimeout
    rfl (by decide) (by decide) (by decide) (by decide) (by decide) (by decide)
  exact ⟨h.1, h.2 .acquireTimeout rfl⟩

/-- C10: `get_worker_gpu_ids` parses any comma-separated list of integer
tokens in declaration order, with no non-negativity check and no
deduplication: `"-3,1"` yields `[-3, 1]`, `"1,1"` keeps the duplicate,
`"2,0,1"` keeps the declared order; and in general, whenever every token
parses as an integer, the token list maps pointwise to its parses, in
order, with nothing filtered, sorted or deduplicated. -/
theorem C10_parse_resource_ids :
    get_worker_gpu_ids ⟨none, some "-3,1"⟩ = .ok [-3, 1]
    ∧ get_worker_gpu_ids ⟨none, some "1,1"⟩ = .ok [1, 1]
    ∧ get_worker_gpu_ids ⟨none, some "2,0,1"⟩ = .ok [2, 0, 1]
    ∧ ∀ toks : List String, (∀ t ∈ toks, (pyInt t).isSome) →
        parseIntList toks = some (toks.map fun t => (pyInt t).getD 0) := by
  refine ⟨by decide, by decide, by decide, ?_⟩
  intro toks
  induction toks with
  | nil => intro _; rfl
  | cons t ts ih =>
    intro h
    have ht : (pyInt t).isSome := h t (by simp)
    obtain ⟨v, hv⟩ := Option.isSome_iff_exists.mp ht
    have := ih fun t2 ht2 => h t2 (by simp [ht2])
    simp [parseIntList, hv, this]

/-- C10 witness: every token of `["-3", "1"]` parses, so the list maps
pointwise to its parses in order. -/
theorem C10_witness :
    parseIntList ["-3", "1"] = some (["-3", "1"].map fun t => (pyInt t).getD 0) :=
  C10_parse_resource_ids.2.2.2 ["-3", "1"] (by decide)

/-- A successful probe run contains exactly one acquisition and no
release. -/
theorem probeForGpu_ok_counts (wid : String) (limiter : String → ProbeOutcome)
    (cs : List (Int × String)) (es : List Event) (g : Int) (n : String)
    (rest : List (Int × String))
    (hp : probeForGpu wid limiter cs = (es, .ok (g, n, rest))) :
    countAcq es = 1 ∧ countRel es = 0 := by
  obtain ⟨es0, hdec, hne, -⟩ := probeForGpu_ok_decomp wid limiter cs es g n rest hp
  have hz := neutral_counts es0 hne
  have h1 := hz.1
  have h2 := hz.2.1
  simp only [countAcq, countRel] at h1 h2 ⊢
  rw [hdec]
  simp [List.countP_append, List.countP_cons, h1, h2]

/-- Running-maximum accounting of one lease block: a neutral probe
segment, the probe and acquisition of `n`, a neutral protected body, and
the release of `n`, starting from zero held slots and a running maximum of
0 or 1, ends back at zero held slots with running maximum exactly 1. -/
theorem maxHeldAux_leaseSegment (es0 mid rest : List Event) (n : String) (m : Int)
    (hne : ∀ e ∈ es0, heldDelta e = 0) (hmid : ∀ e ∈ mid, heldDelta e = 0)
    (hm : m = 0 ∨ m = 1) :
    maxHeldAux (es0 ++ (.probe n :: .acq n :: (mid ++ (.rel n :: rest)))) 0 m
      = maxHeldAux rest 0 1 := by
  rcases hm with rfl | rfl
  · rw [maxHeldAux_neutral es0 _ 0 0 hne le_rfl]
    simp only [maxHeldAux, heldDelta, add_zero, zero_add, max_self]
    rw [show max (0 : Int) 1 = 1 by decide]
    rw [maxHeldAux_neutral mid _ 1 1 hmid le_rfl]
    simp only [maxHeldAux, heldDelta]
    rw [show (1 : Int) + -1 = 0 by decide]
    rw [show max (1 : Int) 0 = 1 by decide]
  · rw [maxHeldAux_neutral es0 _ 0 1 hne (by norm_num)]
    simp only [maxHeldAux, heldDelta, add_zero, zero_add]
    rw [show max (1 : Int) 0 = 1 by decide]
    rw [show max (1 : Int) 1 = 1 by decide]
    rw [maxHeldAux_neutral mid _ 1 1 hmid le_rfl]
    simp only [maxHeldAux, heldDelta]
    rw [show (1 : Int) + -1 = 0 by decide]
    rw [show max (1 : Int) 0 = 1 by decide]

/-- C7: under successful acquisitions, the per-task flow performs exactly
three acquire/release cycles (each lease released before the next
acquisition, as the explicit trace shows), the whole-pipeline flow
acquires exactly one lease spanning all three work units, and in both
patterns the number of simultaneously held leases never exceeds one and is
zero at the end. -/
theorem C7_lease_patterns (env : Env) (wid : String) (gpuIds : List Int)
    (l1 l2 l3 : String → ProbeOutcome) (f : Nat → Nat)
    (es1 es2 es3 : List Event) (g1 g2 g3 : Int) (n1 n2 n3 : String)
    (r1 r2 r3 : List (Int × String))
    (hwid : env.workerId = some wid) (hids : get_worker_gpu_ids env = .ok gpuIds)
    (h1 : probeForGpu wid l1 (gpuIds.map fun g => (g, mkLimiterName wid g))
      = (es1, .ok (g1, n1, r1)))
    (h2 : probeForGpu wid l2 (gpuIds.map fun g => (g, mkLimiterName wid g))
      = (es2, .ok (g2, n2, r2)))
    (h3 : probeForGpu wid l3 (gpuIds.map fun g => (g, mkLimiterName wid g))
      = (es3, .ok (g3, n3, r3))) :
    (task_acquisition_prediction_flow env l1 l2 l3 f).2.1
      = es1 ++ [.yld g1, .work "pre_processing", .rel n1]
        ++ es2 ++ [.yld g2, .work "predict", .rel n2]
        ++ es3 ++ [.yld g3, .work "post_processing", .rel n3]
    ∧ countAcq (task_acquisition_prediction_flow env l1 l2 l3 f).2.1 = 3
    ∧ countRel (task_acquisition_prediction_flow env l1 l2 l3 f).2.1 = 3
    ∧ maxHeld (task_acquisition_prediction_flow env l1 l2 l3 f).2.1 ≤ 1
    ∧ heldAfter (task_acquisition_prediction_flow env l1 l2 l3 f).2.1 = 0
    ∧ (single_acquisition_prediction_flow env l1 f).2.1
      = es1 ++ [.yld g1, .work "pre_processing", .work "predict", .work "post_processing",
          .rel n1]
    ∧ countAcq (single_acquisition_prediction_flow env l1 f).2.1 = 1
    ∧ countRel (single_acquisition_prediction_flow env l1 f).2.1 = 1
    ∧ maxHeld (single_acquisition_prediction_flow env l1 f).2.1 ≤ 1
    ∧ heldAfter (single_acquisition_prediction_flow env l1 f).2.1 = 0 := by
  obtain ⟨es01, hdec1, hne1, -⟩ := probeForGpu_ok_decomp wid l1 _ es1 g1 n1 r1 h1
  obtain ⟨es02, hdec2, hne2, -⟩ := probeForGpu_ok_decomp wid l2 _ es2 g2 n2 r2 h2
  obtain ⟨es03, hdec3, hne3, -⟩ := probeForGpu_ok_decomp wid l3 _ es3 g3 n3 r3 h3
  obtain ⟨ha1, hr1⟩ := probeForGpu_ok_counts wid l1 _ es1 g1 n1 r1 h1
  obtain ⟨ha2, hr2⟩ := probeForGpu_ok_counts wid l2 _ es2 g2 n2 r2 h2
  obtain ⟨ha3, hr3⟩ := probeForGpu_ok_counts wid l3 _ es3 g3 n3 r3 h3
  have htask : (task_acquisition_prediction_flow env l1 l2 l3 f).2.1
      = es1 ++ [.yld g1, .work "pre_processing", .rel n1]
        ++ es2 ++ [.yld g2, .work "predict", .rel n2]
        ++ es3 ++ [.yld g3, .work "post_processing", .rel n3] := by
    simp only [task_acquisition_prediction_flow, hwid, hids, h1, h2, h3,
      pre_processing, predict, post_processing, simulate_work]
  have hsingle : (single_acquisition_prediction_flow env l1 f).2.1
      = es1 ++ [.yld g1, .work "pre_processing", .work "predict", .work "post_processing",
          .rel n1] := by
    simp only [single_acquisition_prediction_flow, hwid, hids, h1,
      pre_processing, predict, post_processing, simulate_work]
  have hmid2 : ∀ u : String, ∀ g : Int, ∀ e ∈ [Event.yld g, Event.work u], heldDelta e = 0 := by
    intro u g e he
    simp only [List.mem_cons, List.not_mem_nil, or_false] at he
    rcases he with rfl | rfl <;> rfl
  have hmid4 : ∀ g : Int, ∀ e ∈ [Event.yld g, Event.work "pre_processing",
      Event.work "predict", Event.work "post_processing"], heldDelta e = 0 := by
    intro g e he
    simp only [List.mem_cons, List.not_mem_nil, or_false] at he
    rcases he with rfl | rfl | rfl | rfl <;> rfl
  refine ⟨htask, ?_, ?_, ?_, ?_, hsingle, ?_, ?_, ?_, ?_⟩
  · rw [htask]
    simp only [countAcq] at ha1 ha2 ha3 ⊢
    simp [List.countP_append, List.countP_cons, ha1, ha2, ha3]
  · rw [htask]
    simp only [countRel] at hr1 hr2 hr3 ⊢
    simp [List.countP_append, List.countP_cons, hr1, hr2, hr3]
  · rw [htask]
    have hshape : es1 ++ [Event.yld g1, Event.work "pre_processing", Event.rel n1]
        ++ es2 ++ [Event.yld g2, Event.work "predict", Event.rel n2]
        ++ es3 ++ [Event.yld g3, Event.work "post_processing", Event.rel n3]
      = es01 ++ (.probe n1 :: .acq n1 :: ([Event.yld g1, Event.work "pre_processing"]
          ++ (.rel n1 :: (es02 ++ (.probe n2 :: .acq n2 :: ([Event.yld g2, Event.work "predict"]
          ++ (.rel n2 :: (es03 ++ (.probe n3 :: .acq n3
          :: ([Event.yld g3, Event.work "post_processing"]
          ++ (.rel n3 :: ([] : List Event)))))))))))) := by
      rw [hdec1, hdec2, hdec3]
      simp [List.append_assoc]
    rw [maxHeld, hshape]
    rw [maxHeldAux_leaseSegment es01 _ _ n1 0 hne1 (hmid2 "pre_processing" g1) (Or.inl rfl)]
    rw [maxHeldAux_leaseSegment es02 _ _ n2 1 hne2 (hmid2 "predict" g2) (Or.inr rfl)]
    rw [maxHeldAux_leaseSegment es03 _ _ n3 1 hne3 (hmid2 "post_processing" g3) (Or.inr rfl)]
    simp [maxHeldAux]
  · rw [htask, heldAfter_eq_counts]
    simp only [countAcq, countRel] at ha1 ha2 ha3 hr1 hr2 hr3 ⊢
    simp [List.countP_append, List.countP_cons, ha1, ha2, ha3, hr1, hr2, hr3]
  · rw [hsingle]
    simp only [countAcq] at ha1 ⊢
    simp [List.countP_append, List.countP_cons, ha1]
  · rw [hsingle]
    simp only [countRel] at hr1 ⊢
    simp [List.countP_append, List.countP_cons, hr1]
  · rw [hsingle]
    have hshape : es1 ++ [Event.yld g1, Event.work "pre_processing", Event.work "predict",
        Event.work "post_processing", Event.rel n1]
      = es01 ++ (.probe n1 :: .acq n1 :: ([Event.yld g1, Event.work "pre_processing",
          Event.work "predict", Event.work "post_processing"]
          ++ (.rel n1 :: ([] : List Event)))) := by
      rw [hdec1]
      simp [List.append_assoc]
    rw [maxHeld, hshape]
    rw [maxHeldAux_leaseSegment es01 _ _ n1 0 hne1 (hmid4 g1) (Or.inl rfl)]
    simp [maxHeldAux]
  · rw [hsingle, heldAfter_eq_counts]
    simp only [countAcq, countRel] at ha1 hr1 ⊢
    simp [List.countP_append, List.countP_cons, ha1, hr1]

/-- C7 witness: worker `w` with one resource and a free limiter — the
per-task flow acquires three times, the whole-pipeline flow once. -/
theorem C7_witness :
    countAcq (task_acquisition_prediction_flow ⟨some "w", some "0"⟩
        (fun _ => .acquired) (fun _ => .acquired) (fun _ => .acquired) (fun _ => 0)).2.1 = 3
    ∧ countAcq (single_acquisition_prediction_flow ⟨some "w", some "0"⟩
        (fun _ => .acquired) (fun _ => 0)).2.1 = 1 := by
  have h := C7_lease_patterns ⟨some "w", some "0"⟩ "w" [0]
    (fun _ => .acquired) (fun _ => .acquired) (fun _ => .acquired) (fun _ => 0)
    [.probe "gpu-w-0", .acq "gpu-w-0"] [.probe "gpu-w-0", .acq "gpu-w-0"]
    [.probe "gpu-w-0", .acq "gpu-w-0"] 0 0 0 "gpu-w-0" "gpu-w-0" "gpu-w-0" [] [] []
    rfl (by decide) (by decide) (by decide) (by decide)
  exact ⟨h.2.1, h.2.2.2.2.2.2.1⟩

/-- C8 counterexample: the claim says both entry points return a final
label value derived from the predict unit; on a concrete successful run
both flows return Python `None` (modelled as `Option.none`) — the label is
printed by `post_processing` (here `"CAT"`), not returned. -/
theorem C8_counterexample :
    (task_acquisition_prediction_flow ⟨some "w", some "0"⟩
        (fun _ => .acquired) (fun _ => .acquired) (fun _ => .acquired) (fun _ => 0)).1
      = .ok none
    ∧ (single_acquisition_prediction_flow ⟨some "w", some "0"⟩
        (fun _ => .acquired) (fun _ => 0)).1 = .ok none
    ∧ (single_acquisition_prediction_flow ⟨some "w", some "0"⟩
        (fun _ => .acquired) (fun _ => 0)).2.2 = ["CAT"] := by
  refine ⟨?_, ?_, ?_⟩ <;> decide

/-- C8 amended: both entry points return `None`; the final label — chosen
by the predict unit from the shared random stream and upper-cased — is
printed by `post_processing`; given the same random stream, both patterns
print the same single label, and that label depends only on the stream,
not on the acquired resource ids nor on the limiter states. -/
theorem C8_same_printed_label (env : Env) (wid : String) (gpuIds : List Int)
    (l1 l2 l3 lS : String → ProbeOutcome) (f : Nat → Nat)
    (es1 es2 es3 esS : List Event) (g1 g2 g3 gS : Int) (n1 n2 n3 nS : String)
    (r1 r2 r3 rS : List (Int × String))
    (hwid : env.workerId = some wid) (hids : get_worker_gpu_ids env = .ok gpuIds)
    (h1 : probeForGpu wid l1 (gpuIds.map fun g => (g, mkLimiterName wid g))
      = (es1, .ok (g1, n1, r1)))
    (h2 : probeForGpu wid l2 (gpuIds.map fun g => (g, mkLimiterName wid g))
      = (es2, .ok (g2, n2, r2)))
    (h3 : probeForGpu wid l3 (gpuIds.map fun g => (g, mkLimiterName wid g))
      = (es3, .ok (g3, n3, r3)))
    (hS : probeForGpu wid lS (gpuIds.map fun g => (g, mkLimiterName wid g))
      = (esS, .ok (gS, nS, rS))) :
    (task_acquisition_prediction_flow env l1 l2 l3 f).1 = .ok none
    ∧ (single_acquisition_prediction_flow env lS f).1 = .ok none
    ∧ (task_acquisition_prediction_flow env l1 l2 l3 f).2.2
      = [pyUpper (labels.getD (f 60 % 6) "")]
    ∧ (single_acquisition_prediction_flow env lS f).2.2
      = [pyUpper (labels.getD (f 60 % 6) "")] := by
  refine ⟨?_, ?_, ?_, ?_⟩ <;>
    simp only [task_acquisition_prediction_flow, single_acquisition_prediction_flow,
      hwid, hids, h1, h2, h3, hS, pre_processing, predict, post_processing, simulate_work] <;>
    norm_num

/-- C8 witness: a concrete successful run of both flows on the same
all-zero random stream prints the same label. -/
theorem C8_witness :
    (task_acquisition_prediction_flow ⟨some "w", some "0,1"⟩
        (fun _ => .acquired) (fun _ => .acquired) (fun _ => .acquired) (fun _ => 0)).2.2
      = [pyUpper (labels.getD 0 "")]
    ∧ (single_acquisition_prediction_flow ⟨some "w", some "0,1"⟩
        (fun _ => .acquired) (fun _ => 0)).2.2 = [pyUpper (labels.getD 0 "")] := by
  have h := C8_same_printed_label ⟨some "w", some "0,1"⟩ "w" [0, 1]
    (fun _ => .acquired) (fun _ => .acquired) (fun _ => .acquired) (fun _ => .acquired)
    (fun _ => 0)
    [.probe "gpu-w-0", .acq "gpu-w-0"] [.probe "gpu-w-0", .acq "gpu-w-0"]
    [.probe "gpu-w-0", .acq "gpu-w-0"] [.probe "gpu-w-0", .acq "gpu-w-0"]
    0 0 0 0 "gpu-w-0" "gpu-w-0" "gpu-w-0" "gpu-w-0"
    [(1, "gpu-w-1")] [(1, "gpu-w-1")] [(1, "gpu-w-1")] [(1, "gpu-w-1")]
    rfl (by decide) (by decide) (by decide) (by decide) (by decide)
  exact ⟨h.2.2.1, h.2.2.2⟩

